import Mathlib

/-!
Verification development for the LaserAnalysisAI frame-processing / OCR pipeline.

The Python sources are shallowly embedded as follows.

* Raster images are modelled symbolically: every OpenCV primitive the code
  applies (`cv2.GaussianBlur`, `cv2.threshold` with Otsu, `cv2.morphologyEx`
  close, `cv2.Canny`, ...) is a constructor of the free datatype `Img`, so two
  pipelines are equal exactly when they apply the same primitives with the
  same parameters in the same order.  This is the right granularity for the
  dispatch-table and preprocessing claims, which are about which transforms
  run, not about pixel values.
* The filesystem and the external Tesseract engine are oracles bundled in an
  `Env` record (`listdir`, `readImage` for `cv2.imread` in grayscale mode,
  `engine` for the pytesseract calls).  `cv2.imread` returns `None` on
  failure, hence `readImage : String → Option Img`.
* Python strings are Lean `String`s.  Python's `str.replace`, `str.strip`
  and `str.lower` are re-implemented structurally over `String.data`
  (`pyReplace`, `pyStrip`, `pyLower`) because the corresponding core-library
  functions are defined by well-founded recursion and do not reduce inside
  the kernel; the re-implementations follow Python's semantics (replace all
  non-overlapping occurrences left to right, strip whitespace at both ends,
  lower-case every character).
* `FrameViewer` (gui/frame_viewer.py) is a record of its four mutable fields;
  each method becomes a state-passing function.  Python's `int` index is
  modelled as `Int` so that out-of-range and negative seeks are expressible.
* `extract_frames` (scripts/frame_extraction.py) is modelled by the list of
  filesystem effects it performs (directory creation and frame-file writes)
  plus its terminal outcome.  The `ThreadPoolExecutor` only parallelises the
  independent `cv2.imwrite` calls; the set of submitted writes is decided
  sequentially by the read loop, which is what the model records.  GUI-only
  side effects (progress signals, pixmap updates, `print`) are not modelled,
  except that the strings routed to the OCR text display are recorded as
  `DisplayEvent`s because the error-handling claims mention them.
-/

/-! ## Symbolic raster images (the cv2 primitives used by the repository) -/

inductive Img where
  | source : Nat → Img
  | gaussianBlur : Img → Nat → Nat → Nat → Img     -- kernel (kx, ky), sigmaX
  | otsuThreshold : Img → Img                       -- cv2.threshold(_, 0, 255, BINARY+OTSU)
  | morphClose : Img → Nat → Nat → Img              -- cv2.morphologyEx(_, MORPH_CLOSE, ones (kx, ky))
  | canny : Img → Nat → Nat → Img                   -- cv2.Canny(_, low, high)
  | adaptiveThreshold : Img → Nat → Nat → Img       -- cv2.adaptiveThreshold(_, 255, GAUSSIAN, BINARY, block, C)
  | sharpen : Img → Img                             -- cv2.filter2D with the fixed sharpen kernel
  | equalizeHist : Img → Img
  | medianBlur : Img → Nat → Img
  | bilateralFilter : Img → Nat → Nat → Nat → Img
  deriving DecidableEq

/-! ## Python string helpers, structural so the kernel can evaluate them -/

/-- Python `str.lower`, character by character. -/
def pyLower (s : String) : String := ⟨s.data.map Char.toLower⟩

/-- Python `str.strip` (whitespace removed from both ends). -/
def pyStrip (s : String) : String :=
  ⟨((s.data.dropWhile Char.isWhitespace).reverse.dropWhile Char.isWhitespace).reverse⟩

/-- Worker for `pyReplace`; the fuel argument (initially the length of the
string) makes the recursion structural.  One unit of fuel is spent per
character position examined, and a match consumes `pat.length ≥ 1`
characters, so `s.length` fuel always suffices. -/
def pyReplaceGo (pat repl : List Char) : Nat → List Char → List Char
  | _, [] => []
  | 0, s => s
  | fuel + 1, c :: rest =>
    if pat ≠ [] ∧ pat.isPrefixOf (c :: rest) then
      repl ++ pyReplaceGo pat repl fuel (List.drop (pat.length - 1) rest)
    else
      c :: pyReplaceGo pat repl fuel rest

/-- Python `s.replace(pat, repl)` for a non-empty pattern: replaces every
non-overlapping occurrence, scanning left to right. -/
def pyReplace (s pat repl : String) : String :=
  ⟨pyReplaceGo pat.data repl.data s.data.length s.data⟩

/-! ## utils/common.py -/

/-- One ruled-on extension check from `list_images_in_directory`:
`f.lower().endswith(ext)`. -/
def endsWithExt (f ext : String) : Bool := ext.data.isSuffixOf (pyLower f).data

/-- The extension filter of `utils.common.list_images_in_directory`. -/
def isImageFile (f : String) : Bool :=
  [".png", ".jpg", ".jpeg", ".bmp", ".tiff"].any (fun ext => endsWithExt f ext)

/-- `os.path.join(directory, f)` for the POSIX-style relative paths the
repository uses. -/
def joinPath (dir f : String) : String := dir ++ "/" ++ f

/-- `utils.common.list_images_in_directory`:
`sorted([os.path.join(directory, f) for f in os.listdir(directory) if f.lower().endswith(exts)])`.
Python's `sorted` is a stable ascending sort; `List.insertionSort` is the
same extensionally. -/
def list_images_in_directory (listdir : String → List String) (directory : String) : List String :=
  List.insertionSort (· ≤ ·) (((listdir directory).filter isImageFile).map (joinPath directory))

/-- `utils.common.apply_threshold`: Otsu binary threshold, no blur. -/
def apply_threshold (image : Img) : Img := Img.otsuThreshold image

/-- `utils.common.preprocess_for_ocr`: Otsu threshold of a 5×5 Gaussian blur. -/
def preprocess_for_ocr (image : Img) : Img := apply_threshold (Img.gaussianBlur image 5 5 0)

/-- `utils.common.enhance_contrast`. -/
def enhance_contrast (image : Img) : Img := Img.equalizeHist image

/-- `utils.common.apply_morphological_operations` with its default 3×3 kernel. -/
def apply_morphological_operations (image : Img) : Img := Img.morphClose image 3 3

/-! ## The external oracles -/

/-- One token row of the pytesseract `image_to_data` DICT output (parallel
arrays `text`/`conf`/`left`/`top`/`width`/`height`, transposed into a record).
pytesseract reports the entries of `conf` as decimal strings; the sentinel
row value `'-1'` means "no confidence known".  Since a decimal string equals
`'-1'` exactly when its numeric value is `-1`, `conf` is modelled by its
numeric value. -/
structure OcrToken where
  text : String
  conf : Int
  left : Int
  top : Int
  width : Int
  height : Int
  deriving DecidableEq

/-- Outcome of driving the external Tesseract engine on one binary image:
the executable may be missing (`pytesseract.TesseractNotFoundError`), the
recognition may fail (`pytesseract.TesseractError`), or it returns the full
text together with the word-level data. -/
inductive EngineOut where
  | notFound : EngineOut
  | err : String → EngineOut
  | ok : String → List OcrToken → EngineOut
  deriving DecidableEq

/-- The ambient environment: directory listing, grayscale image loading
(`cv2.imread(_, IMREAD_GRAYSCALE)`, `none` on failure) and the OCR engine. -/
structure Env where
  listdir : String → List String
  readImage : String → Option Img
  engine : Img → EngineOut

/-! ## scripts/image_processing.py -/

/-- `scripts.image_processing.apply_edge_detection`. -/
def apply_edge_detection (image : Img) : Img :=
  Img.canny (Img.gaussianBlur image 5 5 0) 50 150

/-- `scripts.image_processing.process_image` (the `show_analysis` branch only
displays plots and is not modelled).  Loads the image in grayscale and
dispatches on the mode string exactly as the `if`/`elif` chain does;
an unreadable image or an unknown mode yields `None`. -/
def process_image (env : Env) (image_path : String) (processing_type : String) : Option Img :=
  match env.readImage image_path with
  | none => none
  | some img =>
    if processing_type = "Edge Detection" then some (apply_edge_detection img)
    else if processing_type = "Thresholding" then some (apply_threshold img)
    else if processing_type = "Morphological Operations" then some (apply_morphological_operations img)
    else if processing_type = "Adaptive Thresholding" then some (Img.adaptiveThreshold img 11 2)
    else if processing_type = "Gaussian Blur" then some (Img.gaussianBlur img 5 5 0)
    else if processing_type = "Sharpening" then some (Img.sharpen img)
    else if processing_type = "Histogram Equalization" then some (Img.equalizeHist img)
    else if processing_type = "Median Blur" then some (Img.medianBlur img 5)
    else if processing_type = "Bilateral Filter" then some (Img.bilateralFilter img 9 75 75)
    else none

/-! ## gui/ocr_processor.py -/

/-- Line 102 of gui/ocr_processor.py:
`confidences = [int(conf) for conf in ocr_data['conf'] if conf != '-1']`
followed by `avg_confidence = sum(confidences) / len(confidences) if confidences else 0`.
The mean is computed in exact rational arithmetic (Python uses float
division; every value claimed about it is exactly representable). -/
def avg_confidence (conf : List Int) : ℚ :=
  let confidences := conf.filter (fun c => c != -1)
  if confidences.isEmpty then 0 else (confidences.sum : ℚ) / (confidences.length : ℚ)

/-- Spec-side notion: the confidences reported as known (the engine sentinel
`-1` marks "unknown" and is excluded). -/
def knownConfidences (conf : List Int) : List Int := conf.filter (fun c => c != -1)

/-- Spec-side notion: the arithmetic mean of a list of integers. -/
def arithmeticMean (xs : List Int) : ℚ := (xs.sum : ℚ) / (xs.length : ℚ)

/-- What `OCRProcessor.process_ocr` sends to the GUI: either a plain message
(`update_text_display` with an error string) or the result summary built from
the detected text, the aggregate confidence and the word-detail rows (whose
exact display formatting is presentation-only and kept structured here). -/
inductive DisplayEvent where
  | textMsg : String → DisplayEvent
  | resultSummary : String → ℚ → List OcrToken → DisplayEvent

/-- The image handed to the engine by `OCRProcessor.process_ocr`:
`preprocess_for_ocr`, optionally contrast equalization plus morphological
close when `enhance_text` is set, then one more Otsu binarization. -/
def ocr_preprocessed (enhance_text : Bool) (img : Img) : Img :=
  let preprocessed := preprocess_for_ocr img
  if enhance_text then apply_morphological_operations (enhance_contrast preprocessed)
  else preprocessed

/-- `cv2.threshold(preprocessed_img, 0, 255, BINARY + OTSU)` from
`OCRProcessor.process_ocr`. -/
def ocr_binary (enhance_text : Bool) (img : Img) : Img :=
  Img.otsuThreshold (ocr_preprocessed enhance_text img)

/-- `OCRProcessor.process_ocr(image_path, return_text=True)` — every call in
the batch and worker paths passes `return_text=True` (with
`return_text=False` the same function returns the summary string instead of
the detected text).  First component: the returned string; second component:
the events routed to the text display. -/
def process_ocr (env : Env) (enhance_text : Bool) (image_path : String) :
    String × List DisplayEvent :=
  if image_path = "" then ("", [DisplayEvent.textMsg "Error: No image selected."])
  else
    match env.readImage image_path with
    | none => ("", [DisplayEvent.textMsg "Error: Image not found."])
    | some img =>
      match env.engine (ocr_binary enhance_text img) with
      | EngineOut.notFound =>
          ("", [DisplayEvent.textMsg "Error: Tesseract is not installed or not in PATH."])
      | EngineOut.err e => ("", [DisplayEvent.textMsg ("OCR Error: " ++ e)])
      | EngineOut.ok text tokens =>
          let detected_text := pyStrip text
          let avg := avg_confidence (tokens.map OcrToken.conf)
          let word_details := tokens.filter (fun t => pyStrip t.text != "")
          (detected_text, [DisplayEvent.resultSummary detected_text avg word_details])

/-- The string `OCRProcessor.process_ocr(_, return_text=True)` hands back. -/
def ocr_single_result (env : Env) (enhance_text : Bool) (image_path : String) : String :=
  (process_ocr env enhance_text image_path).1

/-- `OCRProcessor.process_ocr_batch`: `results = [None] * len(image_paths)`;
each submitted task stores `process_ocr(image_path, return_text=True)` into
its own slot; leaving the `with ThreadPoolExecutor()` block waits for every
task, so the fold runs every slot assignment (completion order cannot matter:
each task writes only its own index). -/
def process_ocr_batch (env : Env) (enhance_text : Bool) (image_paths : List String) :
    List (Option String) :=
  (List.enumFrom 0 image_paths).foldl
    (fun results p => results.set p.1 (some (ocr_single_result env enhance_text p.2)))
    (List.replicate image_paths.length none)

/-! ## gui/frame_viewer.py -/

/-- The mutable fields of `FrameViewer`: the three parallel sequences and the
cursor.  `None` entries of `processed_frames` / `ocr_texts` are `none`. -/
structure FrameViewerState where
  frames : List String
  processed_frames : List (Option String)
  ocr_texts : List (Option String)
  current_frame_index : Int
  deriving DecidableEq

/-- `FrameViewer.load_frames`. -/
def load_frames (env : Env) (folder_path : String) : FrameViewerState :=
  let fs := list_images_in_directory env.listdir folder_path
  { frames := fs
    processed_frames := List.replicate fs.length none
    ocr_texts := List.replicate fs.length none
    current_frame_index := 0 }

/-- The data `FrameViewer.display_frame` presents for the current cursor:
the original path, the processed path (if computed) and the OCR text (if
computed). -/
def currentTriple (s : FrameViewerState) : Option String × Option String × Option String :=
  (s.frames[s.current_frame_index.toNat]?,
   (s.processed_frames[s.current_frame_index.toNat]?).join,
   (s.ocr_texts[s.current_frame_index.toNat]?).join)

/-- `FrameViewer.next_frame`.  The moved branch returns
`self.display_frame()`, which returns Python `None` (modelled `none`); the
boundary branch returns the tuple `(None, None)`. -/
def next_frame (s : FrameViewerState) :
    FrameViewerState × Option (Option String × Option String) :=
  if s.frames ≠ [] ∧ s.current_frame_index < (s.frames.length : Int) - 1 then
    ({ s with current_frame_index := s.current_frame_index + 1 }, none)
  else
    (s, some (none, none))

/-- `FrameViewer.prev_frame`. -/
def prev_frame (s : FrameViewerState) :
    FrameViewerState × Option (Option String × Option String) :=
  if s.frames ≠ [] ∧ 0 < s.current_frame_index then
    ({ s with current_frame_index := s.current_frame_index - 1 }, none)
  else
    (s, some (none, none))

/-- `FrameViewer.set_frame`: validates `0 <= index < len(self.frames)`,
updates the cursor and returns `(frames[index], processed_frames[index])`;
out of range it mutates nothing and returns `(None, None)`. -/
def set_frame (s : FrameViewerState) (index : Int) :
    FrameViewerState × (Option String × Option String) :=
  if 0 ≤ index ∧ index < (s.frames.length : Int) then
    ({ s with current_frame_index := index },
     (s.frames[index.toNat]?, (s.processed_frames[index.toNat]?).join))
  else
    (s, (none, none))

/-- `frame_path.replace("frames", "processed_frames")` as used by the
processing worker. -/
def processed_path_of (frame_path : String) : String :=
  pyReplace frame_path "frames" "processed_frames"

/-- `FrameProcessingWorker.process_frames` (inside
`FrameViewer.process_all_frames`): slot `i` receives the processed path when
`process_image` succeeds and stays `None` when the mode is unsupported or the
image unreadable (the `continue`); `process_image` is total here, so the
enclosing `try`/`except` catch-all never fires. -/
def process_frames_worker (env : Env) (processing_mode : String) (frames : List String) :
    List (Option String) :=
  frames.map (fun frame_path =>
    match process_image env frame_path processing_mode with
    | none => none
    | some _ => some (processed_path_of frame_path))

/-- Python truthiness of an optional string (`if frame_path:`): `None` and
the empty string are falsy. -/
def pyTruthy : Option String → Bool
  | none => false
  | some s => s != ""

/-- `OCRProcessingWorker.process_ocr` (inside `FrameViewer.process_all_ocr`):
a truthy processed path is OCRed, otherwise the sentinel
`"No processed frame available."` is recorded; the modelled `process_ocr`
is total, so the catch-all `"OCR Error: ..."` branch never fires. -/
def process_all_ocr_worker (env : Env) (enhance_text : Bool)
    (processed_frames : List (Option String)) : List (Option String) :=
  processed_frames.map (fun frame_path =>
    if pyTruthy frame_path then
      some (ocr_single_result env enhance_text (frame_path.getD ""))
    else
      some "No processed frame available.")

/-- `MainWindow.processFrames`: runs the worker over the current frames, then
`on_finished` stores the emitted list into `frameViewer.processed_frames` and
calls `set_frame(0)` when frames exist. -/
def mw_process_frames (env : Env) (processing_mode : String) (s : FrameViewerState) :
    FrameViewerState :=
  let s1 := { s with processed_frames := process_frames_worker env processing_mode s.frames }
  if s1.frames ≠ [] then (set_frame s1 0).1 else s1

/-- `MainWindow.processOCR`: runs the OCR worker over the current processed
frames, then `on_finished` stores the emitted list into
`frameViewer.ocr_texts` and calls `set_frame(0)` when frames exist. -/
def mw_process_ocr (env : Env) (enhance_text : Bool) (s : FrameViewerState) :
    FrameViewerState :=
  let s1 := { s with ocr_texts := process_all_ocr_worker env enhance_text s.processed_frames }
  if s1.frames ≠ [] then (set_frame s1 0).1 else s1

/-- The operations that mutate the store after start-up.  `setProcessedAtOp`
and `setOcrAtOp` are the per-index slot writers `update_processed_frame` and
`update_ocr_text` (their indices come from `enumerate`, hence `Nat`;
`List.set` leaves the list unchanged out of range where Python would raise —
either way the list is never resized). -/
inductive StoreOp where
  | loadOp : String → StoreOp
  | nextOp : StoreOp
  | prevOp : StoreOp
  | seekOp : Int → StoreOp
  | processAllOp : String → StoreOp
  | processAllOCROp : Bool → StoreOp
  | setProcessedAtOp : Nat → String → StoreOp
  | setOcrAtOp : Nat → String → StoreOp

/-- One store operation as a state transformer. -/
def storeStep (env : Env) (s : FrameViewerState) : StoreOp → FrameViewerState
  | StoreOp.loadOp dir => load_frames env dir
  | StoreOp.nextOp => (next_frame s).1
  | StoreOp.prevOp => (prev_frame s).1
  | StoreOp.seekOp i => (set_frame s i).1
  | StoreOp.processAllOp mode => mw_process_frames env mode s
  | StoreOp.processAllOCROp e => mw_process_ocr env e s
  | StoreOp.setProcessedAtOp i p => { s with processed_frames := s.processed_frames.set i (some p) }
  | StoreOp.setOcrAtOp i t => { s with ocr_texts := s.ocr_texts.set i (some t) }

/-- The parallel-array invariant of the frame store. -/
def storeInv (s : FrameViewerState) : Prop :=
  s.processed_frames.length = s.frames.length ∧ s.ocr_texts.length = s.frames.length

/-! ## scripts/frame_extraction.py -/

/-- `f"{n:04d}"`: zero-pad the decimal representation to at least 4 digits. -/
def pad4 (n : Nat) : String :=
  let s := toString n
  String.mk (List.replicate (4 - s.length) '0') ++ s

/-- `os.path.join(output_folder, f"frame_{saved_frames:04d}.jpg")`. -/
def frameFilename (output_folder : String) (saved : Nat) : String :=
  output_folder ++ "/frame_" ++ pad4 saved ++ ".jpg"

/-- Filesystem effects of `extract_frames`: `os.makedirs(output_folder)` and
`cv2.imwrite(filename, frame)` where the written raster is the
`srcIdx`-th frame read from the video. -/
inductive FsEffect where
  | mkdirEffect : String → FsEffect
  | writeFile : String → Nat → FsEffect
  deriving DecidableEq

/-- Whether an effect writes a frame file. -/
def FsEffect.isFrameWrite : FsEffect → Bool
  | FsEffect.mkdirEffect _ => false
  | FsEffect.writeFile _ _ => true

/-- The video side of the world: whether `os.path.exists(video_path)` holds,
whether `cv2.VideoCapture(video_path).isOpened()` holds, and how many frames
`cap.read()` yields before returning `ret == False`. -/
structure VideoEnv where
  pathExists : Bool
  isOpened : Bool
  decodableFrames : Nat

/-- How `extract_frames` returns: an early return printing "Video file not
found", an early return printing "Could not open video", or the normal end
of stream printing the kept count.  The Python function raises nothing and
returns `None` on every path; the constructors record which `print` ran. -/
inductive ExtractOutcome where
  | fileNotFound : ExtractOutcome
  | openFailed : ExtractOutcome
  | completed : Nat → ExtractOutcome
  deriving DecidableEq

/-- The read loop of `extract_frames`: `frame_count` counts frames read,
`saved_frames` counts frames kept; a frame is kept iff
`frame_count % frame_interval == 0`, and the kept frame is written under the
`saved_frames` sequence number.  `remaining` is the number of reads left
before end of stream.  (`frame_interval = 0` would raise
`ZeroDivisionError` in Python; the claims only concern `interval ≥ 1`.) -/
def extractLoop (output_folder : String) (frame_interval : Nat) :
    Nat → Nat → Nat → List FsEffect
  | _, _, 0 => []
  | frame_count, saved_frames, remaining + 1 =>
    if frame_count % frame_interval = 0 then
      FsEffect.writeFile (frameFilename output_folder saved_frames) frame_count
        :: extractLoop output_folder frame_interval (frame_count + 1) (saved_frames + 1) remaining
    else
      extractLoop output_folder frame_interval (frame_count + 1) saved_frames remaining

/-- `scripts.frame_extraction.extract_frames`: missing file → early return
with no effects; `os.makedirs(output_folder, exist_ok=True)`; open failure →
early return; otherwise the read loop submits one write per kept frame and
the final print reports the kept count. -/
def extract_frames (env : VideoEnv) (output_folder : String) (frame_interval : Nat) :
    List FsEffect × ExtractOutcome :=
  if !env.pathExists then ([], ExtractOutcome.fileNotFound)
  else if !env.isOpened then ([FsEffect.mkdirEffect output_folder], ExtractOutcome.openFailed)
  else
    let writes := extractLoop output_folder frame_interval 0 0 env.decodableFrames
    (FsEffect.mkdirEffect output_folder :: writes, ExtractOutcome.completed writes.length)

/-- The source-frame indices kept by a run over `total` decodable frames. -/
def keptIndices (frame_interval total : Nat) : List Nat :=
  (List.range total).filter (fun i => decide (i % frame_interval = 0))

/-! ## Concrete fixtures used by witnesses and counterexamples -/

/-- Every path reads as the same grayscale raster; the engine finds no text
(a blank frame): `image_to_string` returns `""` and `image_to_data` has no
tokens. -/
def envBlankFrame : Env :=
  ⟨fun _ => [], fun _ => some (Img.source 0), fun _ => EngineOut.ok "" []⟩

/-- No path is readable (`cv2.imread` always fails) and the Tesseract
executable is missing. -/
def envUnreadable : Env :=
  ⟨fun _ => [], fun _ => none, fun _ => EngineOut.notFound⟩

/-- A directory listing with a single extracted frame file. -/
def envOneFile : Env :=
  ⟨fun _ => ["frame_0000.jpg"], fun _ => none, fun _ => EngineOut.notFound⟩

/-- A freshly loaded store holding one frame. -/
def stateOneLoaded : FrameViewerState :=
  ⟨["data/frames/frame_0000.jpg"], [none], [none], 0⟩

/-- A store whose single frame has been processed and OCRed already. -/
def stateStale : FrameViewerState :=
  ⟨["data/frames/frame_0000.jpg"], [some "data/processed_frames/frame_0000.jpg"],
   [some "stale text"], 0⟩

/-- A store holding two frames, cursor at 0. -/
def stateTwoFrames : FrameViewerState :=
  ⟨["a", "b"], [none, none], [none, none], 0⟩

/-- The slot shape claimed for every OCR slot after the round trip: a string
that is the no-processed-frame placeholder, an `"OCR Error: "`-prefixed
message, or non-empty detected text. -/
def claimSlotOk (o : Option String) : Prop :=
  ∃ t, o = some t ∧
    (t = "No processed frame available."
      ∨ "OCR Error: ".data.isPrefixOf t.data = true
      ∨ t ≠ "")

instance (s : FrameViewerState) : Decidable (storeInv s) := by
  unfold storeInv
  infer_instance

/-! ## Helper lemmas -/

theorem set_frame_frames (s : FrameViewerState) (i : Int) :
    ((set_frame s i).1).frames = s.frames := by
  unfold set_frame
  split <;> rfl

theorem set_frame_processed (s : FrameViewerState) (i : Int) :
    ((set_frame s i).1).processed_frames = s.processed_frames := by
  unfold set_frame
  split <;> rfl

theorem set_frame_ocr (s : FrameViewerState) (i : Int) :
    ((set_frame s i).1).ocr_texts = s.ocr_texts := by
  unfold set_frame
  split <;> rfl

theorem mw_process_frames_frames (env : Env) (m : String) (s : FrameViewerState) :
    (mw_process_frames env m s).frames = s.frames := by
  by_cases h : s.frames = [] <;> simp [mw_process_frames, set_frame_frames, h]

theorem mw_process_frames_processed (env : Env) (m : String) (s : FrameViewerState) :
    (mw_process_frames env m s).processed_frames = process_frames_worker env m s.frames := by
  by_cases h : s.frames = [] <;> simp [mw_process_frames, set_frame_processed, h]

theorem mw_process_frames_ocr (env : Env) (m : String) (s : FrameViewerState) :
    (mw_process_frames env m s).ocr_texts = s.ocr_texts := by
  by_cases h : s.frames = [] <;> simp [mw_process_frames, set_frame_ocr, h]

theorem mw_process_ocr_frames (env : Env) (e : Bool) (s : FrameViewerState) :
    (mw_process_ocr env e s).frames = s.frames := by
  by_cases h : s.frames = [] <;> simp [mw_process_ocr, set_frame_frames, h]

theorem mw_process_ocr_ocr (env : Env) (e : Bool) (s : FrameViewerState) :
    (mw_process_ocr env e s).ocr_texts = process_all_ocr_worker env e s.processed_frames := by
  by_cases h : s.frames = [] <;> simp [mw_process_ocr, set_frame_ocr, h]

theorem mw_process_ocr_processed (env : Env) (e : Bool) (s : FrameViewerState) :
    (mw_process_ocr env e s).processed_frames = s.processed_frames := by
  by_cases h : s.frames = [] <;> simp [mw_process_ocr, set_frame_processed, h]

/-! ## C9 -/

/-- C9: for every store state and every index `i` outside `[0, N-1]` (negative
included), `set_frame i` returns the pair `(None, None)` and leaves the whole
state — in particular the current frame index — unchanged. -/
theorem seek_out_of_range_noop (s : FrameViewerState) (i : Int)
    (h : i < 0 ∨ (s.frames.length : Int) ≤ i) :
    set_frame s i = (s, (none, none)) := by
  unfold set_frame
  rw [if_neg (by omega)]

theorem seek_out_of_range_noop_witness :
    set_frame stateTwoFrames 5 = (stateTwoFrames, (none, none))
    ∧ set_frame stateTwoFrames (-1) = (stateTwoFrames, (none, none)) :=
  ⟨seek_out_of_range_noop stateTwoFrames 5 (by decide),
   seek_out_of_range_noop stateTwoFrames (-1) (by decide)⟩

/-! ## C5 -/

/-- C5 counterexample: on a readable grayscale image, the Thresholding mode
does NOT produce "Gaussian blur then Otsu", and the Morphological Operations
mode does NOT produce "Gaussian blur then close": the code applies Otsu
(resp. the 3×3 close) directly to the loaded image with no blur. -/
theorem threshold_dispatch_cex :
    process_image envBlankFrame "p" "Thresholding"
        ≠ some (Img.otsuThreshold (Img.gaussianBlur (Img.source 0) 5 5 0))
    ∧ process_image envBlankFrame "p" "Morphological Operations"
        ≠ some (Img.morphClose (Img.gaussianBlur (Img.source 0) 5 5 0) 3 3) := by
  decide

/-- C5 amended: for every readable single-channel input image, mode
Thresholding applies the Otsu binary threshold directly (no prior blur) and
mode Morphological Operations applies the morphological close with the 3×3
kernel directly (no prior blur), per the dispatch chain of `process_image`;
the blur-then-Otsu pipeline exists only as the separate OCR preprocessing
(`preprocess_for_ocr`). -/
theorem threshold_dispatch_amended (env : Env) (p : String) (img : Img)
    (h : env.readImage p = some img) :
    process_image env p "Thresholding" = some (Img.otsuThreshold img)
    ∧ process_image env p "Morphological Operations" = some (Img.morphClose img 3 3)
    ∧ preprocess_for_ocr img = Img.otsuThreshold (Img.gaussianBlur img 5 5 0) := by
  refine ⟨?_, ?_, rfl⟩ <;>
    simp [process_image, h, apply_threshold, apply_morphological_operations]

theorem threshold_dispatch_amended_witness :
    process_image envBlankFrame "p" "Thresholding" = some (Img.otsuThreshold (Img.source 0))
    ∧ process_image envBlankFrame "p" "Morphological Operations"
        = some (Img.morphClose (Img.source 0) 3 3)
    ∧ preprocess_for_ocr (Img.source 0)
        = Img.otsuThreshold (Img.gaussianBlur (Img.source 0) 5 5 0) :=
  threshold_dispatch_amended envBlankFrame "p" (Img.source 0) rfl

/-! ## C2 -/

/-- C2: the aggregate OCR confidence is the arithmetic mean of the word
confidences reported as known (the sentinel `-1` is filtered out before
averaging), it is `0` when no word has a known confidence, and in particular
`[80, 60, unknown]` averages to `70` and an empty word list gives `0`.
The second conjunct states the mean property multiplicatively (mean times
count equals sum of the known confidences). -/
theorem ocr_confidence_mean_spec :
    (∀ conf : List Int,
        avg_confidence conf =
          if knownConfidences conf = [] then 0
          else arithmeticMean (knownConfidences conf))
    ∧ (∀ conf : List Int, knownConfidences conf ≠ [] →
        avg_confidence conf * ((knownConfidences conf).length : ℚ)
          = ((knownConfidences conf).sum : ℚ))
    ∧ avg_confidence [80, 60, -1] = 70
    ∧ avg_confidence [] = 0 := by
  have hdef : ∀ conf : List Int,
      avg_confidence conf =
        if knownConfidences conf = [] then 0
        else arithmeticMean (knownConfidences conf) := by
    intro conf
    by_cases hc : conf.filter (fun c => c != -1) = [] <;>
      simp [avg_confidence, knownConfidences, arithmeticMean, hc]
  refine ⟨hdef, ?_, by norm_num [avg_confidence], by norm_num [avg_confidence]⟩
  intro conf h
  rw [hdef conf, if_neg h]
  have hl : ((knownConfidences conf).length : ℚ) ≠ 0 := by
    have : (knownConfidences conf).length ≠ 0 :=
      fun h0 => h (List.length_eq_zero.mp h0)
    exact_mod_cast this
  rw [arithmeticMean, div_mul_cancel₀ _ hl]

theorem ocr_confidence_mean_witness :
    avg_confidence [80, 60, -1] * ((knownConfidences [80, 60, -1]).length : ℚ)
      = ((knownConfidences [80, 60, -1]).sum : ℚ) :=
  ocr_confidence_mean_spec.2.1 [80, 60, -1] (by decide)

/-! ## C7 -/

/-- C7 counterexample: a store whose single frame already carries the OCR
text `"stale text"` is re-processed with a different mode; the processed slot
is overwritten with the new processed path, but the OCR slot still holds
`"stale text"` — it is not cleared, contradicting the claimed invalidation. -/
theorem reprocess_stale_ocr_cex :
    (mw_process_frames envBlankFrame "Thresholding" stateStale).ocr_texts
        = [some "stale text"]
    ∧ (mw_process_frames envBlankFrame "Thresholding" stateStale).processed_frames
        = [some "data/processed_frames/frame_0000.jpg"]
    ∧ [some "stale text"] ≠ ([none] : List (Option String)) := by
  refine ⟨?_, ?_, by decide⟩ <;> decide

/-- C7 amended: re-running the batch processing operation overwrites every
frame slot's Processed state with the new worker output, but it leaves the
Recognized OCR state of every slot unchanged (stale); the OCR results are not
invalidated and must be refreshed by re-running the OCR batch. -/
theorem reprocess_overwrite_amended (env : Env) (mode : String) (s : FrameViewerState) :
    (mw_process_frames env mode s).processed_frames = process_frames_worker env mode s.frames
    ∧ (mw_process_frames env mode s).ocr_texts = s.ocr_texts
    ∧ (mw_process_frames env mode s).frames = s.frames :=
  ⟨mw_process_frames_processed env mode s, mw_process_frames_ocr env mode s,
   mw_process_frames_frames env mode s⟩

/-! ## C6 -/

/-- C6 counterexample: with an existing video file that cannot be opened
(`interval = 5`, as in the GUI), extraction performs a filesystem write —
the output directory is created by `os.makedirs` before the open check — so
"performs no writes" is false; moreover the outcome is an ordinary early
return (a printed message), not a propagated error. -/
theorem video_open_failure_cex :
    (extract_frames ⟨true, false, 150⟩ "data/frames" 5).1
        = [FsEffect.mkdirEffect "data/frames"]
    ∧ (extract_frames ⟨true, false, 150⟩ "data/frames" 5).1 ≠ [] := by
  decide

/-- C6 amended: if the video file is missing, extraction returns early with
no filesystem effects at all; if the file exists but the source cannot be
opened, extraction has already created the output directory but writes no
frame files, and it halts by returning normally with a printed message — no
`VideoOpenError` (or any error) propagates to the caller. -/
theorem video_open_failure_amended :
    (∀ (env : VideoEnv) (folder : String) (interval : Nat), env.pathExists = false →
        extract_frames env folder interval = ([], ExtractOutcome.fileNotFound))
    ∧ (∀ (env : VideoEnv) (folder : String) (interval : Nat),
        env.pathExists = true → env.isOpened = false →
        extract_frames env folder interval
            = ([FsEffect.mkdirEffect folder], ExtractOutcome.openFailed)
        ∧ ((extract_frames env folder interval).1.all (fun e => !e.isFrameWrite)) = true) := by
  constructor
  · intro env folder interval h
    simp [extract_frames, h]
  · intro env folder interval h1 h2
    constructor <;> simp [extract_frames, h1, h2, FsEffect.isFrameWrite]

theorem video_open_failure_witness :
    extract_frames ⟨false, false, 150⟩ "data/frames" 5 = ([], ExtractOutcome.fileNotFound)
    ∧ extract_frames ⟨true, false, 150⟩ "data/frames" 5
        = ([FsEffect.mkdirEffect "data/frames"], ExtractOutcome.openFailed) :=
  ⟨video_open_failure_amended.1 ⟨false, false, 150⟩ "data/frames" 5 rfl,
   (video_open_failure_amended.2 ⟨true, false, 150⟩ "data/frames" 5 rfl rfl).1⟩

/-! ## C4 -/

/-- C4 counterexample: on a two-frame store, `seek(0); prev(); next()` does
not return to the triple of `seek(0)`: `prev` at the left boundary is a
no-op, and the following `next` moves the cursor to 1, so the displayed
triple is frame 1's, not frame 0's. -/
theorem nav_roundtrip_at_zero_cex :
    currentTriple (next_frame (prev_frame (set_frame stateTwoFrames 0).1).1).1
      ≠ currentTriple (set_frame stateTwoFrames 0).1
    ∧ (next_frame (prev_frame (set_frame stateTwoFrames 0).1).1).1.current_frame_index = 1 := by
  decide

/-- C4 amended: `seek(i); prev(); next()` restores exactly the state of
`seek(i)` (hence the same displayed triple) for every `1 ≤ i < N`; at the
boundaries, `prev()` with the cursor at 0 is a no-op and `next()` with the
cursor at `N-1` is a no-op.  (For `i = 0` with `N ≥ 2` the claimed round
trip fails because the no-op `prev` is followed by a real `next`.) -/
theorem nav_roundtrip_amended :
    (∀ (s : FrameViewerState) (i : Int), 1 ≤ i → i < (s.frames.length : Int) →
        (next_frame (prev_frame (set_frame s i).1).1).1 = (set_frame s i).1)
    ∧ (∀ s : FrameViewerState, s.current_frame_index = 0 → (prev_frame s).1 = s)
    ∧ (∀ s : FrameViewerState, s.current_frame_index = (s.frames.length : Int) - 1 →
        (next_frame s).1 = s) := by
  refine ⟨?_, ?_, ?_⟩
  · intro s i h1 h2
    obtain ⟨fr, pf, ot, ci⟩ := s
    dsimp only at h2
    have hne : fr ≠ [] := by
      intro hnil
      rw [hnil] at h2
      simp at h2
      omega
    unfold set_frame
    rw [if_pos ⟨by omega, h2⟩]
    unfold prev_frame
    rw [if_pos ⟨hne, (by omega : (0 : Int) < i)⟩]
    unfold next_frame
    rw [if_pos ⟨hne, (by omega : i - 1 < (fr.length : Int) - 1)⟩]
    have hi : i - 1 + 1 = i := by omega
    rw [hi]
  · intro s h
    unfold prev_frame
    rw [if_neg (fun hc => absurd hc.2 (by omega))]
  · intro s h
    unfold next_frame
    rw [if_neg (fun hc => absurd hc.2 (by omega))]

theorem nav_roundtrip_amended_witness :
    (1 : Int) ≤ 1
    ∧ (next_frame (prev_frame (set_frame stateTwoFrames 1).1).1).1
        = (set_frame stateTwoFrames 1).1
    ∧ (prev_frame stateTwoFrames).1 = stateTwoFrames :=
  ⟨by decide,
   nav_roundtrip_amended.1 stateTwoFrames 1 (by decide) (by decide),
   nav_roundtrip_amended.2.1 stateTwoFrames rfl⟩

/-! ## C3 -/

theorem process_all_ocr_worker_isSome (env : Env) (e : Bool)
    (pfs : List (Option String)) :
    (process_all_ocr_worker env e pfs).all Option.isSome = true := by
  rw [process_all_ocr_worker, List.all_map, List.all_eq_true]
  intro fp _
  by_cases h : pyTruthy fp = true <;> simp [h]

/-- C3 counterexample: run the full round trip (`processAll "Gaussian Blur"`
then `processAllOCR`) on a one-frame store against an engine that reports no
text on the (readable) processed frame.  The resulting OCR slot is `some ""`
— a set but silently empty string, which is neither non-empty detected text
nor any recognized placeholder, refuting the claimed slot shape.  (The same
empty string also results when the engine is missing or errors, because
`process_ocr` routes those messages to the display and returns `""`.) -/
theorem ocr_roundtrip_empty_slot_cex :
    (mw_process_ocr envBlankFrame false
        (mw_process_frames envBlankFrame "Gaussian Blur" stateOneLoaded)).ocr_texts
      = [some ""]
    ∧ ¬ claimSlotOk (some "") := by
  constructor
  · decide
  · rintro ⟨t, ht, hcase⟩
    have h0 : t = "" := by
      cases ht
      rfl
    subst h0
    rcases hcase with h1 | h2 | h3
    · exact absurd h1 (by decide)
    · exact absurd h2 (by decide)
    · exact h3 rfl

/-- C3 amended: after `processAll(mode)` followed by `processAllOCR()`, the
OCR-results sequence has exactly the length of the frames sequence and every
slot is set to a string (never `None`/unset); the string is the detected
text — possibly empty, e.g. when no text is found or an engine error was
routed to the display — or the "No processed frame available." placeholder
for frames whose processing failed. -/
theorem ocr_roundtrip_slots_amended (env : Env) (mode : String) (enhance : Bool)
    (s : FrameViewerState) :
    ((mw_process_ocr env enhance (mw_process_frames env mode s)).ocr_texts).length
        = ((mw_process_ocr env enhance (mw_process_frames env mode s)).frames).length
    ∧ ((mw_process_ocr env enhance (mw_process_frames env mode s)).ocr_texts).all
        Option.isSome = true := by
  constructor
  · rw [mw_process_ocr_ocr, mw_process_ocr_frames, mw_process_frames_frames,
      mw_process_frames_processed]
    simp [process_all_ocr_worker, process_frames_worker]
  · rw [mw_process_ocr_ocr]
    exact process_all_ocr_worker_isSome env enhance _

/-! ## C10 -/

theorem take_set_of_le {α : Type} (v : α) :
    ∀ (l : List α) (n k : Nat), k ≤ n → (l.set n v).take k = l.take k := by
  intro l
  induction l with
  | nil => intro n k _; rfl
  | cons a t ih =>
    intro n k hk
    cases n with
    | zero =>
      have : k = 0 := Nat.le_zero.mp hk
      subst this
      rfl
    | succ n =>
      cases k with
      | zero => rfl
      | succ k =>
        rw [List.set_cons_succ, List.take_succ_cons, List.take_succ_cons,
          ih n k (Nat.succ_le_succ_iff.mp hk)]

theorem process_ocr_batch_foldl (env : Env) (e : Bool) :
    ∀ (paths : List String) (k : Nat) (init : List (Option String)),
      init.length = k + paths.length →
      (List.enumFrom k paths).foldl
          (fun results p => results.set p.1 (some (ocr_single_result env e p.2))) init
        = init.take k ++ paths.map (fun p => some (ocr_single_result env e p)) := by
  intro paths
  induction paths with
  | nil =>
    intro k init h
    simp only [List.length_nil, Nat.add_zero] at h
    simp only [List.enumFrom, List.foldl, List.map, List.append_nil]
    rw [← h, List.take_length]
  | cons p ps ih =>
    intro k init h
    have hk : k < init.length := by simp at h; omega
    rw [List.enumFrom_cons, List.foldl_cons]
    rw [ih (k + 1) (init.set k (some (ocr_single_result env e p)))
      (by rw [List.length_set]; simp at h ⊢; omega)]
    have hset : (init.set k (some (ocr_single_result env e p))).take (k + 1)
        = init.take k ++ [some (ocr_single_result env e p)] := by
      rw [List.take_succ, take_set_of_le _ _ _ _ (Nat.le_refl k),
        List.getElem?_set_self', List.getElem?_eq_getElem hk]
      rfl
    rw [hset, List.map_cons, List.append_assoc]
    rfl

/-- C10: the single-image OCR operation is total and returns a string for
every input — on an empty image path, an unreadable image, a missing
Tesseract executable, and a per-image recognition error it returns the empty
string while routing the corresponding error message to the text display —
and the batch operation fills every slot with the single-image result, so a
batch caller receives one string per input (the conjuncts cover, in order:
empty path, unreadable image, engine unavailable, recognition error, and the
batch characterization). -/
theorem ocr_no_exception_spec :
    (∀ (env : Env) (e : Bool),
        process_ocr env e "" = ("", [DisplayEvent.textMsg "Error: No image selected."]))
    ∧ (∀ (env : Env) (e : Bool) (p : String), p ≠ "" → env.readImage p = none →
        process_ocr env e p = ("", [DisplayEvent.textMsg "Error: Image not found."]))
    ∧ (∀ (env : Env) (e : Bool) (p : String) (img : Img), p ≠ "" →
        env.readImage p = some img →
        env.engine (ocr_binary e img) = EngineOut.notFound →
        process_ocr env e p
          = ("", [DisplayEvent.textMsg "Error: Tesseract is not installed or not in PATH."]))
    ∧ (∀ (env : Env) (e : Bool) (p : String) (img : Img) (msg : String), p ≠ "" →
        env.readImage p = some img →
        env.engine (ocr_binary e img) = EngineOut.err msg →
        process_ocr env e p = ("", [DisplayEvent.textMsg ("OCR Error: " ++ msg)]))
    ∧ (∀ (env : Env) (e : Bool) (paths : List String),
        process_ocr_batch env e paths
          = paths.map (fun p => some (ocr_single_result env e p))) := by
  refine ⟨?_, ?_, ?_, ?_, ?_⟩
  · intro env e
    simp [process_ocr]
  · intro env e p hp hr
    simp [process_ocr, hp, hr]
  · intro env e p img hp hr heng
    simp [process_ocr, hp, hr, heng]
  · intro env e p img msg hp hr heng
    simp [process_ocr, hp, hr, heng]
  · intro env e paths
    rw [process_ocr_batch,
      process_ocr_batch_foldl env e paths 0 (List.replicate paths.length none) (by simp)]
    rfl

theorem ocr_no_exception_witness :
    process_ocr envUnreadable false "x"
        = ("", [DisplayEvent.textMsg "Error: Image not found."])
    ∧ process_ocr_batch envUnreadable false ["x"]
        = ["x"].map (fun p => some (ocr_single_result envUnreadable false p)) :=
  ⟨ocr_no_exception_spec.2.1 envUnreadable false "x" (by decide) rfl,
   ocr_no_exception_spec.2.2.2.2 envUnreadable false ["x"]⟩

/-! ## C8 -/

theorem storeInv_load (env : Env) (dir : String) : storeInv (load_frames env dir) := by
  constructor <;> simp [load_frames]

theorem next_frame_lists (s : FrameViewerState) :
    ((next_frame s).1).frames = s.frames
    ∧ ((next_frame s).1).processed_frames = s.processed_frames
    ∧ ((next_frame s).1).ocr_texts = s.ocr_texts := by
  unfold next_frame
  split <;> exact ⟨rfl, rfl, rfl⟩

theorem prev_frame_lists (s : FrameViewerState) :
    ((prev_frame s).1).frames = s.frames
    ∧ ((prev_frame s).1).processed_frames = s.processed_frames
    ∧ ((prev_frame s).1).ocr_texts = s.ocr_texts := by
  unfold prev_frame
  split <;> exact ⟨rfl, rfl, rfl⟩

/-- C8: `load(directory)` resets the three parallel sequences to one common
length — the number of image files in the listing, presented in sorted
(lexicographic) order — with every processed/OCR slot empty and the cursor at
0; and the length invariant `len(processedFrames) = len(frames) =
len(ocrTexts)` is preserved by every subsequent store operation (navigation,
seek, reload, batch processing, batch OCR, and the per-index slot writers). -/
theorem store_parallel_invariant :
    (∀ (env : Env) (dir : String),
        storeInv (load_frames env dir)
        ∧ (load_frames env dir).current_frame_index = 0
        ∧ (load_frames env dir).frames.length
            = ((env.listdir dir).filter isImageFile).length
        ∧ (load_frames env dir).processed_frames
            = List.replicate (load_frames env dir).frames.length none
        ∧ (load_frames env dir).ocr_texts
            = List.replicate (load_frames env dir).frames.length none
        ∧ List.Sorted (· ≤ ·) (load_frames env dir).frames)
    ∧ (∀ (env : Env) (s : FrameViewerState) (op : StoreOp),
        storeInv s → storeInv (storeStep env s op)) := by
  constructor
  · intro env dir
    refine ⟨storeInv_load env dir, rfl, ?_, rfl, rfl, ?_⟩
    · show (List.insertionSort _ _).length = _
      rw [(List.perm_insertionSort _ _).length_eq, List.length_map]
    · exact List.sorted_insertionSort _ _
  · intro env s op h
    obtain ⟨h1, h2⟩ := h
    cases op with
    | loadOp dir => exact storeInv_load env dir
    | nextOp =>
      obtain ⟨e1, e2, e3⟩ := next_frame_lists s
      exact ⟨by rw [storeStep, e2, e1]; exact h1, by rw [storeStep, e3, e1]; exact h2⟩
    | prevOp =>
      obtain ⟨e1, e2, e3⟩ := prev_frame_lists s
      exact ⟨by rw [storeStep, e2, e1]; exact h1, by rw [storeStep, e3, e1]; exact h2⟩
    | seekOp i =>
      exact ⟨by rw [storeStep, set_frame_processed, set_frame_frames]; exact h1,
             by rw [storeStep, set_frame_ocr, set_frame_frames]; exact h2⟩
    | processAllOp mode =>
      constructor
      · rw [storeStep, mw_process_frames_processed, mw_process_frames_frames]
        simp [process_frames_worker]
      · rw [storeStep, mw_process_frames_ocr, mw_process_frames_frames]
        exact h2
    | processAllOCROp e =>
      constructor
      · rw [storeStep, mw_process_ocr_processed, mw_process_ocr_frames]
        exact h1
      · rw [storeStep, mw_process_ocr_ocr, mw_process_ocr_frames]
        simpa [process_all_ocr_worker] using h1
    | setProcessedAtOp i p =>
      exact ⟨by simp only [storeStep, List.length_set]; exact h1,
             by simp only [storeStep]; exact h2⟩
    | setOcrAtOp i t =>
      exact ⟨by simp only [storeStep]; exact h1,
             by simp only [storeStep, List.length_set]; exact h2⟩

theorem store_parallel_invariant_witness :
    storeInv (load_frames envOneFile "data/frames")
    ∧ storeInv (storeStep envOneFile stateTwoFrames StoreOp.nextOp) :=
  ⟨(store_parallel_invariant.1 envOneFile "data/frames").1,
   store_parallel_invariant.2 envOneFile stateTwoFrames StoreOp.nextOp (by decide)⟩

/-! ## C1 -/

theorem extractLoop_eq (folder : String) (interval : Nat) :
    ∀ (n fc saved : Nat),
      extractLoop folder interval fc saved n
        = (List.enumFrom saved
            ((List.range' fc n).filter (fun i => decide (i % interval = 0)))).map
            (fun p => FsEffect.writeFile (frameFilename folder p.1) p.2) := by
  intro n
  induction n with
  | zero => intro fc saved; rfl
  | succ n ih =>
    intro fc saved
    rw [List.range'_succ]
    by_cases h : fc % interval = 0
    · have hdec : (decide (fc % interval = 0)) = true := by simp [h]
      rw [List.filter_cons, hdec, if_pos rfl, List.enumFrom_cons, List.map_cons]
      simp only [extractLoop, if_pos h]
      rw [ih]
    · have hdec : (decide (fc % interval = 0)) = false := by simp [h]
      rw [List.filter_cons, hdec, if_neg Bool.false_ne_true]
      simp only [extractLoop, if_neg h]
      rw [ih]

theorem keptIndices_length (interval : Nat) (h : 1 ≤ interval) :
    ∀ total : Nat, (keptIndices interval total).length = (total + interval - 1) / interval := by
  have hpos : 0 < interval := h
  intro total
  induction total with
  | zero =>
    simp only [keptIndices, List.range_zero, List.filter_nil, List.length_nil]
    rw [Nat.zero_add, Nat.div_eq_of_lt (by omega)]
  | succ t ih =>
    rw [keptIndices, List.range_succ, List.filter_append, List.length_append, ← keptIndices, ih]
    have hdm := Nat.div_add_mod t interval
    have hr : t % interval < interval := Nat.mod_lt t hpos
    by_cases ht : t % interval = 0
    · have hfil : ([t].filter (fun i => decide (i % interval = 0))) = [t] := by simp [ht]
      rw [hfil]
      have e1 : t + interval - 1 = interval * (t / interval) + (interval - 1) := by omega
      have e2 : t + 1 + interval - 1 = interval * (t / interval) + interval := by omega
      rw [e1, e2, Nat.mul_add_div hpos, Nat.mul_add_div hpos,
        Nat.div_eq_of_lt (show interval - 1 < interval by omega), Nat.div_self hpos]
      simp
    · have hfil : ([t].filter (fun i => decide (i % interval = 0))) = [] := by simp [ht]
      rw [hfil]
      have hms : interval * (t / interval + 1) = interval * (t / interval) + interval :=
        Nat.mul_succ interval (t / interval)
      have e3 : t + interval - 1 = interval * (t / interval + 1) + (t % interval - 1) := by
        omega
      have e4 : t + 1 + interval - 1 = interval * (t / interval + 1) + t % interval := by
        omega
      rw [e3, e4, Nat.mul_add_div hpos, Nat.mul_add_div hpos,
        Nat.div_eq_of_lt (show t % interval - 1 < interval by omega),
        Nat.div_eq_of_lt hr, List.length_nil, Nat.add_zero]

/-- C1: for every `interval ≥ 1` and a video of `T` decodable frames,
extraction creates the output directory and then writes exactly
`ceil(T / interval) = (T + interval - 1) / interval` frame files: the `j`-th
write stores the source frame of read index `j * interval` (the kept source
indices are exactly those with `readIndex % interval = 0`) under the
filename built from the kept-sequence number `j` (`frame_%04d.jpg`), numbers
`0 .. k-1` in order with no gaps — not from the source read index.  The file
set is the sequentially decided write list, independent of the completion
order of the pooled writes. -/
theorem extraction_file_spec (folder : String) (interval totalFrames : Nat)
    (h : 1 ≤ interval) :
    extract_frames ⟨true, true, totalFrames⟩ folder interval
      = (FsEffect.mkdirEffect folder
          :: (List.enumFrom 0 (keptIndices interval totalFrames)).map
              (fun p => FsEffect.writeFile (frameFilename folder p.1) p.2),
         ExtractOutcome.completed ((totalFrames + interval - 1) / interval))
    ∧ (keptIndices interval totalFrames).length = (totalFrames + interval - 1) / interval
    ∧ (∀ i : Nat, i ∈ keptIndices interval totalFrames ↔ i < totalFrames ∧ i % interval = 0)
    ∧ (List.enumFrom 0 (keptIndices interval totalFrames)).map Prod.fst
        = List.range ((totalFrames + interval - 1) / interval) := by
  have hlen := keptIndices_length interval h totalFrames
  have hloop := extractLoop_eq folder interval totalFrames 0 0
  have hkept : (List.range' 0 totalFrames).filter (fun i => decide (i % interval = 0))
      = keptIndices interval totalFrames := by
    rw [keptIndices, List.range_eq_range']
  refine ⟨?_, hlen, ?_, ?_⟩
  · have hstart : extract_frames ⟨true, true, totalFrames⟩ folder interval
        = (FsEffect.mkdirEffect folder :: extractLoop folder interval 0 0 totalFrames,
           ExtractOutcome.completed (extractLoop folder interval 0 0 totalFrames).length) :=
      rfl
    rw [hstart, hloop, hkept]
    have hlen2 : ((List.enumFrom 0 (keptIndices interval totalFrames)).map
        (fun p => FsEffect.writeFile (frameFilename folder p.1) p.2)).length
        = (totalFrames + interval - 1) / interval := by
      simp [hlen]
    rw [hlen2]
  · intro i
    simp [keptIndices, List.mem_filter, List.mem_range]
  · rw [List.enumFrom_map_fst, hlen, ← List.range_eq_range']

theorem extraction_file_spec_witness :
    1 ≤ 5
    ∧ (extract_frames ⟨true, true, 150⟩ "data/frames" 5).2 = ExtractOutcome.completed 30
    ∧ (keptIndices 5 150).length = 30 := by
  have h := extraction_file_spec "data/frames" 5 150 (by decide)
  refine ⟨by decide, ?_, ?_⟩
  · rw [h.1]
  · rw [h.2.1]
